import Mathlib

/-!
Verification of the session/workflow state machine of the Data-Analyzing-Bot
frontend (`src/frontend/src/App.js` and the analysis-view components), as a
shallow embedding: component state is explicit, each event handler becomes a
pure function from the prior state and the backend response to the next state
together with the list of HTTP requests it issues.  JavaScript truthiness of
the string-or-null values involved (`sessionId`, `currentAnalysis`,
`result.error`, column names) is modelled exactly: `null` and the empty
string are falsy, every other string is truthy.
-/

namespace DataBot

/-- JavaScript truthiness for a string-or-null value: `null` and `""` are
falsy, every other string is truthy. -/
def truthy : Option String → Bool
  | Option.none => false
  | Option.some s => !(s == "")

/-- A session-descriptor / upload response body (`session_id`, `shape`,
`columns`, `numeric_columns`, `datetime_columns`, `preview`), which may
instead carry an `error` field.  Preview rows are kept as opaque cell
lists; their contents never flow into the control logic. -/
structure ApiResponse where
  session_id : Option String
  shape : List Nat
  columns : List String
  numeric_columns : List String
  datetime_columns : List String
  preview : List (List String)
  error : Option String
  deriving DecidableEq

/-- The three state hooks of the `App` component (`App.js` lines 39-41):
the session workflow controller. -/
structure AppState where
  sessionId : Option String
  dataInfo : Option ApiResponse
  currentAnalysis : Option String
  deriving DecidableEq

/-- `useState(null)` three times: the initial controller state. -/
def initialState : AppState :=
  { sessionId := Option.none, dataInfo := Option.none, currentAnalysis := Option.none }

/-- `handleDataLoaded(sessionData)` (`App.js` 43-47): store the session id
and the whole descriptor, clear the analysis selection. -/
def handleDataLoaded (s : AppState) (sessionData : ApiResponse) : AppState :=
  { s with
      sessionId := sessionData.session_id
      dataInfo := Option.some sessionData
      currentAnalysis := Option.none }

/-- `handleAnalysisSelect(analysisType)` (`App.js` 49-51). -/
def handleAnalysisSelect (s : AppState) (analysisType : String) : AppState :=
  { s with currentAnalysis := Option.some analysisType }

/-- `handleBackToMenu()` (`App.js` 53-55). -/
def handleBackToMenu (s : AppState) : AppState :=
  { s with currentAnalysis := Option.none }

/-- The `onDataReload` callback passed to `AnalysisMenu` (`App.js` 113-117). -/
def onDataReload (s : AppState) : AppState :=
  { s with
      sessionId := Option.none
      dataInfo := Option.none
      currentAnalysis := Option.none }

/-- The controller transitions, with the guards under which the UI can fire
them: `loadData` only for a response carrying a session id (the upload view
calls `onDataLoaded` only on a non-error round trip), `selectAnalysis` only
while a session exists (the menu is only rendered then). -/
inductive Step : AppState → AppState → Prop where
  | loadData (s : AppState) (r : ApiResponse) (h : r.session_id ≠ Option.none) :
      Step s (handleDataLoaded s r)
  | selectAnalysis (s : AppState) (tag : String) (h : s.sessionId ≠ Option.none) :
      Step s (handleAnalysisSelect s tag)
  | backToMenu (s : AppState) : Step s (handleBackToMenu s)
  | reload (s : AppState) : Step s (onDataReload s)

/-- States the controller can reach from its initial state. -/
inductive Reachable : AppState → Prop where
  | init : Reachable initialState
  | step {s t : AppState} : Reachable s → Step s t → Reachable t

/-- The view components `App.js` can render, with the props each receives. -/
inductive View where
  | dataUpload : View
  | analysisMenu : View
  | basicStats : String → View
  | distribution : String → List String → View
  | missingValues : String → View
  | timeSeries : String → List String → List String → View
  | correlation : String → View
  | fullReport : String → View
  | chatBot : String → View
  deriving DecidableEq

/-- The seven analysis tags the `switch` in `renderAnalysisComponent` knows. -/
def knownTags : List String :=
  ["basic_stats", "distribution", "missing_values", "time_series",
   "correlation", "full_report", "chatbot"]

/-- `renderAnalysisComponent()` (`App.js` 57-91): `null` unless both
`sessionId` and `dataInfo` are truthy, then a `switch` on `currentAnalysis`
whose `default` case is `null`. -/
def renderAnalysisComponent (s : AppState) : Option View :=
  match s.sessionId, s.dataInfo with
  | Option.some sid, Option.some info =>
    if sid == "" then Option.none
    else
      match s.currentAnalysis with
      | Option.some tag =>
        if tag == "basic_stats" then Option.some (View.basicStats sid)
        else if tag == "distribution" then
          Option.some (View.distribution sid info.numeric_columns)
        else if tag == "missing_values" then Option.some (View.missingValues sid)
        else if tag == "time_series" then
          Option.some (View.timeSeries sid info.datetime_columns info.numeric_columns)
        else if tag == "correlation" then Option.some (View.correlation sid)
        else if tag == "full_report" then Option.some (View.fullReport sid)
        else if tag == "chatbot" then Option.some (View.chatBot sid)
        else Option.none
      | Option.none => Option.none
  | _, _ => Option.none

/-- The top-level render of `App` (`App.js` 104-120): the upload view
without a truthy session, the analysis component while an analysis is
selected, the menu otherwise. -/
def renderApp (s : AppState) : Option View :=
  if truthy s.sessionId then
    if truthy s.currentAnalysis then renderAnalysisComponent s
    else Option.some View.analysisMenu
  else Option.some View.dataUpload

/-- The HTTP requests `services/api.js` can issue. -/
inductive Request where
  | uploadPreview : String → Request
  | uploadFile : String → Bool → Nat → Nat → Request
  | uploadSample : Request
  | basicStats : String → Request
  | distribution : String → String → Request
  | missingValues : String → Request
  | handleMissing : String → String → Request
  | timeSeries : String → String → List (Option String) → Request
  | correlation : String → Request
  | comprehensiveReport : String → Request
  | chatMessage : String → String → Request
  deriving DecidableEq

/-- A generic analysis-endpoint response: either success data (kept opaque
as `body`; for the chat endpoint it is the `response` text) or an `error`
field. -/
structure AnalysisResult where
  error : Option String
  body : String
  deriving DecidableEq

/-- Local state of `BasicStats` (`AnalysisMenu.js`, second bundled file). -/
structure BasicStatsLocal where
  data : Option AnalysisResult
  loading : Bool
  error : Option String
  deriving DecidableEq

/-- The `fetchStats` response handling in `BasicStats`: an `error` field is
stored in the error state, otherwise the result is stored as data;
`setLoading(false)` runs in `finally`. -/
def fetchStats (st : BasicStatsLocal) (result : AnalysisResult) : BasicStatsLocal :=
  if truthy result.error then { st with error := result.error, loading := false }
  else { st with data := Option.some result, loading := false }

/-- Local state of `DistributionAnalysis` (`part_000`, third bundled file). -/
structure DistributionLocal where
  selectedColumn : String
  data : Option AnalysisResult
  loading : Bool
  error : Option String
  deriving DecidableEq

/-- Initial `DistributionAnalysis` state: `useState(numericColumns[0] || '')`. -/
def distributionInit (numericColumns : List String) : DistributionLocal :=
  { selectedColumn := numericColumns.headD ""
    data := Option.none
    loading := false
    error := Option.none }

/-- The mount effect of `DistributionAnalysis`:
`if (selectedColumn) fetchDistributionData(selectedColumn)`. -/
def distributionMountRequests (sid : String) (st : DistributionLocal) : List Request :=
  if st.selectedColumn ≠ "" then [Request.distribution sid st.selectedColumn] else []

/-- `fetchDistributionData` response handling: `setLoading(true)` and
`setError(null)` first, then the error/data branch. -/
def fetchDistributionData (st : DistributionLocal) (result : AnalysisResult) :
    DistributionLocal :=
  let st1 := { st with loading := true, error := Option.none }
  if truthy result.error then { st1 with error := result.error, loading := false }
  else { st1 with data := Option.some result, loading := false }

/-- Local state of `MissingValuesAnalysis` (`MissingValuesAnalysis.js`). -/
structure MissingLocal where
  data : Option AnalysisResult
  loading : Bool
  error : Option String
  handlingMethod : String
  processing : Bool
  deriving DecidableEq

/-- Initial `MissingValuesAnalysis` state (`useState` lines 27-31). -/
def missingInit : MissingLocal :=
  { data := Option.none, loading := true, error := Option.none
    handlingMethod := "", processing := false }

/-- `fetchMissingValuesData` response handling (lines 37-50): an `error`
field goes to the error state, otherwise the result is stored as data. -/
def fetchMissingValuesData (st : MissingLocal) (result : AnalysisResult) : MissingLocal :=
  if truthy result.error then { st with error := result.error, loading := false }
  else { st with data := Option.some result, loading := false }

/-- `handleMissingValuesAction` (lines 52-70), given the `handle-missing`
response and the response of the eventual re-fetch: no method selected means
no request at all; an error response stores the error and issues no
re-fetch; otherwise the missing-values analysis is fetched once more and the
selected method is reset.  The second component lists the requests issued. -/
def handleMissingValuesAction (sid : String) (st : MissingLocal)
    (handleResult refetchResult : AnalysisResult) : MissingLocal × List Request :=
  if st.handlingMethod == "" then (st, [])
  else if truthy handleResult.error then
    ({ st with error := handleResult.error, processing := false },
      [Request.handleMissing sid st.handlingMethod])
  else
    let st1 := fetchMissingValuesData st refetchResult
    ({ st1 with handlingMethod := "", processing := false },
      [Request.handleMissing sid st.handlingMethod, Request.missingValues sid])

/-- Local state of `TimeSeriesAnalysis` (`part_000`, first bundled file). -/
structure TimeSeriesLocal where
  timeColumn : String
  selectedColumns : List (Option String)
  data : Option AnalysisResult
  loading : Bool
  error : Option String
  deriving DecidableEq

/-- Initial `TimeSeriesAnalysis` state: `useState(datetimeColumns[0] || '')`
and `useState([numericColumns[0]] || [])` — note the latter is always the
one-element array (an array literal is truthy), holding `undefined` when
`numericColumns` is empty. -/
def timeSeriesInit (datetimeColumns numericColumns : List String) : TimeSeriesLocal :=
  { timeColumn := datetimeColumns.headD ""
    selectedColumns := [numericColumns.head?]
    data := Option.none
    loading := false
    error := Option.none }

/-- The mount effect of `TimeSeriesAnalysis` (lines 29-33): fetch only when
`timeColumn` is truthy and some value column is selected. -/
def timeSeriesMountRequests (sid : String) (st : TimeSeriesLocal) : List Request :=
  if st.timeColumn ≠ "" ∧ 0 < st.selectedColumns.length then
    [Request.timeSeries sid st.timeColumn st.selectedColumns]
  else []

/-- `fetchTimeSeriesData` response handling (lines 35-51). -/
def fetchTimeSeriesData (st : TimeSeriesLocal) (result : AnalysisResult) :
    TimeSeriesLocal :=
  let st1 := { st with loading := true, error := Option.none }
  if truthy result.error then { st1 with error := result.error, loading := false }
  else { st1 with data := Option.some result, loading := false }

/-- What the body of `TimeSeriesAnalysis` renders. -/
inductive TimeSeriesView where
  | warning : TimeSeriesView
  | main : TimeSeriesView
  deriving DecidableEq

/-- Lines 78-89 of `part_000`: with no datetime columns the component
returns the warning alert instead of its main body. -/
def timeSeriesBody (datetimeColumns : List String) : TimeSeriesView :=
  if datetimeColumns.length == 0 then TimeSeriesView.warning else TimeSeriesView.main

/-- Local state of `CorrelationAnalysis` (`part_000`, second bundled file). -/
structure CorrelationLocal where
  data : Option AnalysisResult
  loading : Bool
  error : Option String
  deriving DecidableEq

/-- `fetchCorrelationData` response handling (lines 227-244). -/
def fetchCorrelationData (st : CorrelationLocal) (result : AnalysisResult) :
    CorrelationLocal :=
  if truthy result.error then { st with error := result.error, loading := false }
  else { st with data := Option.some result, loading := false }

/-- Local state of `FullReport` (`MissingValuesAnalysis.js`, second bundled
file). -/
structure FullReportLocal where
  reportData : Option AnalysisResult
  loading : Bool
  error : Option String
  deriving DecidableEq

/-- `generateReport` response handling: the source re-labels the fields of
the comprehensive-report response into `reportData`; the stored value is
modelled as the response itself. -/
def generateReport (st : FullReportLocal) (result : AnalysisResult) : FullReportLocal :=
  let st1 := { st with loading := true, error := Option.none }
  if truthy result.error then { st1 with error := result.error, loading := false }
  else { st1 with reportData := Option.some result, loading := false }

/-- JavaScript `String.prototype.trim`: strip leading and trailing
whitespace (executable, unlike the built-in string trim, so that concrete
inputs evaluate). -/
def jsTrim (s : String) : String :=
  String.mk (((s.data.dropWhile Char.isWhitespace).reverse.dropWhile
    Char.isWhitespace).reverse)

/-- One entry of the `ChatBot` message list. -/
structure ChatMessage where
  role : String
  content : String
  deriving DecidableEq

/-- Local state of `ChatBot` (`ChatBot.js`). -/
structure ChatLocal where
  messages : List ChatMessage
  input : String
  loading : Bool
  error : Option String
  deriving DecidableEq

/-- `handleSendMessage` (`ChatBot.js` 33-67): nothing happens on blank input
or while loading; otherwise the trimmed input is appended as the user turn
and exactly one chat request is issued, whose error response is stored in
the error state and echoed as an assistant turn, and whose success response
text is appended as the assistant turn. -/
def handleSendMessage (sid : String) (st : ChatLocal) (result : AnalysisResult) :
    ChatLocal × List Request :=
  if jsTrim st.input == "" || st.loading then (st, [])
  else
    let userMessage := jsTrim st.input
    let st1 := { st with
      input := ""
      messages := st.messages ++ [ChatMessage.mk "user" userMessage]
      loading := true
      error := Option.none }
    if truthy result.error then
      ({ st1 with
          error := result.error
          messages := st1.messages ++
            [ChatMessage.mk "assistant" ("Error: " ++ result.error.getD "")]
          loading := false },
        [Request.chatMessage sid userMessage])
    else
      ({ st1 with
          messages := st1.messages ++ [ChatMessage.mk "assistant" result.body]
          loading := false },
        [Request.chatMessage sid userMessage])

/-- Local state of `DataUpload` (`App.js`, second bundled file). -/
structure UploadLocal where
  loading : Bool
  error : Option String
  selectedFile : Option String
  showOptions : Bool
  hasHeader : Bool
  skipRows : Nat
  headerRow : Nat
  deriving DecidableEq

/-- `handleFileUpload` (`DataUpload`, lines 190-214): nothing without a
selected file; otherwise one `upload/file` request, whose error response is
stored locally and leaves the controller untouched, and whose success
response is handed to `onDataLoaded`. -/
def handleFileUpload (st : UploadLocal) (app : AppState) (result : ApiResponse) :
    UploadLocal × AppState × List Request :=
  match st.selectedFile with
  | Option.none => (st, app, [])
  | Option.some file =>
    let st1 := { st with loading := true, error := Option.none }
    let req := Request.uploadFile file st.hasHeader st.skipRows st.headerRow
    if truthy result.error then
      ({ st1 with error := result.error, loading := false }, app, [req])
    else
      ({ st1 with showOptions := false, loading := false },
        handleDataLoaded app result, [req])

/-- `handleSampleData` (`DataUpload`, lines 216-232). -/
def handleSampleData (st : UploadLocal) (app : AppState) (result : ApiResponse) :
    UploadLocal × AppState × List Request :=
  let st1 := { st with loading := true, error := Option.none }
  if truthy result.error then
    ({ st1 with error := result.error, loading := false }, app, [Request.uploadSample])
  else
    ({ st1 with loading := false }, handleDataLoaded app result, [Request.uploadSample])

/-- The backend requests mounting a rendered view fires immediately (the
initial `useEffect` of each component): the chatbot, the menu, the upload
view and an empty render fire none; `TimeSeriesAnalysis` and
`DistributionAnalysis` fire theirs only when an initial column exists. -/
def viewMountRequests : Option View → List Request
  | Option.some (View.basicStats sid) => [Request.basicStats sid]
  | Option.some (View.distribution sid ncols) =>
      distributionMountRequests sid (distributionInit ncols)
  | Option.some (View.missingValues sid) => [Request.missingValues sid]
  | Option.some (View.timeSeries sid dcols ncols) =>
      timeSeriesMountRequests sid (timeSeriesInit dcols ncols)
  | Option.some (View.correlation sid) => [Request.correlation sid]
  | Option.some (View.fullReport sid) => [Request.comprehensiveReport sid]
  | Option.some (View.chatBot _) => []
  | Option.some View.dataUpload => []
  | Option.some View.analysisMenu => []
  | Option.none => []

/-- A well-formed sample session descriptor, used as concrete input. -/
def sampleInfo : ApiResponse :=
  { session_id := Option.some "s1"
    shape := [100, 3]
    columns := ["date", "price", "volume"]
    numeric_columns := ["price", "volume"]
    datetime_columns := ["date"]
    preview := []
    error := Option.none }

/-- `sampleInfo` without datetime columns. -/
def noDatetimeInfo : ApiResponse := { sampleInfo with datetime_columns := [] }

/-- A response carrying an empty `error` string (falsy in JavaScript). -/
def emptyErrResponse : ApiResponse := { sampleInfo with error := Option.some "" }

/-- A response whose `error` field is a real message. -/
def badResponse : ApiResponse := { sampleInfo with error := Option.some "bad file" }

/-- Controller state after loading `sampleInfo`. -/
def menuState : AppState := handleDataLoaded initialState sampleInfo

/-- Controller state after then selecting the correlation analysis. -/
def corrState : AppState := handleAnalysisSelect menuState "correlation"

/-- A state with a session id but no `dataInfo`. -/
def noInfoState : AppState :=
  { sessionId := Option.some "s1", dataInfo := Option.none, currentAnalysis := Option.none }

/-- A state whose selected analysis is not one of the seven known tags. -/
def bogusTagState : AppState :=
  { sessionId := Option.some "s1", dataInfo := Option.some sampleInfo
    currentAnalysis := Option.some "bogus" }

/-- A `DataUpload` local state with a file selected. -/
def uploadLocal0 : UploadLocal :=
  { loading := false, error := Option.none, selectedFile := Option.some "data.csv"
    showOptions := true, hasHeader := true, skipRows := 0, headerRow := 0 }

/-- An analysis response with an empty (falsy) `error` string. -/
def emptyErrResult : AnalysisResult := { error := Option.some "", body := "payload" }

/-- An analysis response with a real error message. -/
def boomResult : AnalysisResult := { error := Option.some "boom", body := "" }

/-- A successful analysis response. -/
def okResult : AnalysisResult := { error := Option.none, body := "data" }

/-- A `ChatBot` local state with pending input. -/
def chatLocal0 : ChatLocal :=
  { messages := [], input := "hi", loading := false, error := Option.none }

/-- A `MissingValuesAnalysis` local state with a method selected. -/
def missingWithMethod : MissingLocal := { missingInit with handlingMethod := "drop" }

/-- C1: in every reachable controller state, and after every transition
(`loadData` with a valid response, `selectAnalysis` with a non-null session,
`backToMenu`, `reload`), a non-null `currentAnalysis` implies a non-null
`sessionId`; moreover both transitions that change `sessionId` (`loadData`
and `reload`) set `currentAnalysis` to null. -/
theorem session_invariant :
    (∀ s : AppState, Reachable s →
      s.currentAnalysis ≠ Option.none → s.sessionId ≠ Option.none) ∧
    (∀ s t : AppState, Step s t →
      t.currentAnalysis ≠ Option.none → t.sessionId ≠ Option.none) ∧
    (∀ (s : AppState) (r : ApiResponse),
      (handleDataLoaded s r).currentAnalysis = Option.none) ∧
    (∀ s : AppState, (onDataReload s).currentAnalysis = Option.none) := by
  have hstep : ∀ s t : AppState, Step s t →
      t.currentAnalysis ≠ Option.none → t.sessionId ≠ Option.none := by
    intro s t hst
    cases hst with
    | loadData r h => intro hc; exact absurd rfl hc
    | selectAnalysis tag h => intro _; exact h
    | backToMenu => intro hc; exact absurd rfl hc
    | reload => intro hc; exact absurd rfl hc
  refine ⟨?_, hstep, fun s r => rfl, fun s => rfl⟩
  intro s hs
  induction hs with
  | init => intro hc; exact absurd rfl hc
  | step hr hst ih => exact hstep _ _ hst

/-- Witness for C1: the state reached by loading the sample descriptor and
selecting the correlation analysis is reachable, has a non-null analysis
selection, and indeed a non-null session id. -/
theorem session_invariant_witness :
    Reachable corrState ∧ corrState.currentAnalysis ≠ Option.none ∧
      corrState.sessionId ≠ Option.none := by
  have h1 : Reachable menuState :=
    Reachable.step Reachable.init (Step.loadData initialState sampleInfo (by decide))
  have h2 : Reachable corrState :=
    Reachable.step h1 (Step.selectAnalysis menuState "correlation" (by decide))
  exact ⟨h2, by decide, session_invariant.1 corrState h2 (by decide)⟩

/-- C2: for every response whose `session_id` is non-null, `loadData` from
any prior state yields that session id (non-null), stores the response as
`dataInfo`, and clears `currentAnalysis`. -/
theorem loadData_valid_response (s : AppState) (r : ApiResponse) (sid : String)
    (h : r.session_id = Option.some sid) :
    (handleDataLoaded s r).sessionId = r.session_id ∧
    (handleDataLoaded s r).sessionId ≠ Option.none ∧
    (handleDataLoaded s r).dataInfo = Option.some r ∧
    (handleDataLoaded s r).currentAnalysis = Option.none := by
  refine ⟨rfl, ?_, rfl, rfl⟩
  show r.session_id ≠ Option.none
  rw [h]
  exact Option.some_ne_none sid

/-- Witness for C2 at the sample descriptor applied to the initial state. -/
theorem loadData_valid_response_witness :
    sampleInfo.session_id = Option.some "s1" ∧
    ((handleDataLoaded initialState sampleInfo).sessionId = sampleInfo.session_id ∧
     (handleDataLoaded initialState sampleInfo).sessionId ≠ Option.none ∧
     (handleDataLoaded initialState sampleInfo).dataInfo = Option.some sampleInfo ∧
     (handleDataLoaded initialState sampleInfo).currentAnalysis = Option.none) :=
  ⟨rfl, loadData_valid_response initialState sampleInfo "s1" rfl⟩

/-- C3: `reload` unconditionally clears the session id, the data info and
the analysis selection, from every prior state. -/
theorem reload_clears_all (s : AppState) :
    (onDataReload s).sessionId = Option.none ∧
    (onDataReload s).dataInfo = Option.none ∧
    (onDataReload s).currentAnalysis = Option.none :=
  ⟨rfl, rfl, rfl⟩

/-- C7: `backToMenu` is idempotent on every controller state. -/
theorem backToMenu_idempotent (s : AppState) :
    handleBackToMenu (handleBackToMenu s) = handleBackToMenu s := rfl

/-- Counterexample to C4 as stated: a state with a non-null session id but
null `dataInfo`.  Selecting the correlation analysis there renders nothing
(`renderAnalysisComponent` bails out on `!dataInfo`), not the correlation
view. -/
theorem correlation_render_ctrex :
    noInfoState.sessionId ≠ Option.none ∧
    renderApp (handleAnalysisSelect noInfoState "correlation") = Option.none ∧
    renderApp (handleAnalysisSelect noInfoState "correlation") ≠
      Option.some (View.correlation "s1") := by
  refine ⟨by decide, by decide, by decide⟩

/-- C4 (amended): for every state whose session id is a non-empty string
and whose `dataInfo` is non-null, selecting `correlation` renders the
correlation view; `backToMenu` afterwards renders the menu, changes only
`currentAnalysis` (to null), and preserves `sessionId` and `dataInfo`. -/
theorem correlation_select_back_roundtrip (s : AppState) (sid : String)
    (info : ApiResponse) (h1 : s.sessionId = Option.some sid) (h2 : sid ≠ "")
    (h3 : s.dataInfo = Option.some info) :
    renderApp (handleAnalysisSelect s "correlation") =
      Option.some (View.correlation sid) ∧
    renderApp (handleBackToMenu (handleAnalysisSelect s "correlation")) =
      Option.some View.analysisMenu ∧
    handleBackToMenu (handleAnalysisSelect s "correlation") =
      { s with currentAnalysis := Option.none } ∧
    (handleBackToMenu (handleAnalysisSelect s "correlation")).sessionId = s.sessionId ∧
    (handleBackToMenu (handleAnalysisSelect s "correlation")).dataInfo = s.dataInfo := by
  obtain ⟨sid0, info0, tag0⟩ := s
  simp only [AppState.sessionId] at h1
  simp only [AppState.dataInfo] at h3
  subst h1
  subst h3
  have hb : (sid == "") = false := by simpa using h2
  refine ⟨?_, ?_, rfl, rfl, rfl⟩
  · simp [renderApp, handleAnalysisSelect, renderAnalysisComponent, truthy, hb]
  · simp [renderApp, handleAnalysisSelect, handleBackToMenu, truthy, hb]

/-- Witness for the amended C4 at the loaded sample session. -/
theorem correlation_select_back_roundtrip_witness :
    (menuState.sessionId = Option.some "s1" ∧ ("s1" : String) ≠ "" ∧
      menuState.dataInfo = Option.some sampleInfo) ∧
    (renderApp (handleAnalysisSelect menuState "correlation") =
        Option.some (View.correlation "s1") ∧
      renderApp (handleBackToMenu (handleAnalysisSelect menuState "correlation")) =
        Option.some View.analysisMenu ∧
      handleBackToMenu (handleAnalysisSelect menuState "correlation") =
        { menuState with currentAnalysis := Option.none } ∧
      (handleBackToMenu (handleAnalysisSelect menuState "correlation")).sessionId =
        menuState.sessionId ∧
      (handleBackToMenu (handleAnalysisSelect menuState "correlation")).dataInfo =
        menuState.dataInfo) :=
  ⟨⟨rfl, by decide, rfl⟩,
    correlation_select_back_roundtrip menuState "s1" sampleInfo rfl (by decide) rfl⟩

/-- C6: for any session descriptor with an empty `datetime_columns` list,
the time-series view renders the warning alert and its mount effect issues
no backend request (the initial `timeColumn` is the empty string, so the
fetch guard fails). -/
theorem timeseries_no_datetime_warning (sid : String) (info : ApiResponse)
    (h : info.datetime_columns = []) :
    timeSeriesBody info.datetime_columns = TimeSeriesView.warning ∧
    timeSeriesMountRequests sid
      (timeSeriesInit info.datetime_columns info.numeric_columns) = [] := by
  rw [h]
  refine ⟨rfl, ?_⟩
  simp [timeSeriesMountRequests, timeSeriesInit]

/-- Witness for C6 at the sample descriptor stripped of datetime columns. -/
theorem timeseries_no_datetime_warning_witness :
    noDatetimeInfo.datetime_columns = [] ∧
    (timeSeriesBody noDatetimeInfo.datetime_columns = TimeSeriesView.warning ∧
      timeSeriesMountRequests "s1"
        (timeSeriesInit noDatetimeInfo.datetime_columns
          noDatetimeInfo.numeric_columns) = []) :=
  ⟨rfl, timeseries_no_datetime_warning "s1" noDatetimeInfo rfl⟩

/-- Counterexample to C5 as stated: a response that carries an `error`
field holding the empty string is treated as success by `handleFileUpload`
(`if (result.error)` is falsy), so the controller does leave `NoSession`
and no error is stored. -/
theorem upload_error_ctrex :
    emptyErrResponse.error = Option.some "" ∧
    initialState.sessionId = Option.none ∧
    (handleFileUpload uploadLocal0 initialState emptyErrResponse).2.1.sessionId =
      Option.some "s1" ∧
    (handleFileUpload uploadLocal0 initialState emptyErrResponse).1.error =
      Option.none := by
  refine ⟨rfl, rfl, by decide, by decide⟩

/-- C5 (amended): for every response to the `upload/file` or
`upload/sample` request whose `error` field is a non-empty string, the
controller state is unchanged, the error string is stored in the upload
view for display, and the only request issued is the single original one —
no retry. -/
theorem upload_error_keeps_state (st : UploadLocal) (app : AppState)
    (r : ApiResponse) (file e : String) (hf : st.selectedFile = Option.some file)
    (he : r.error = Option.some e) (hne : e ≠ "") :
    (handleFileUpload st app r).2.1 = app ∧
    (handleFileUpload st app r).1.error = Option.some e ∧
    (handleFileUpload st app r).2.2 =
      [Request.uploadFile file st.hasHeader st.skipRows st.headerRow] ∧
    (handleSampleData st app r).2.1 = app ∧
    (handleSampleData st app r).1.error = Option.some e ∧
    (handleSampleData st app r).2.2 = [Request.uploadSample] := by
  have ht : truthy (Option.some e) = true := by
    simpa [truthy] using hne
  unfold handleFileUpload handleSampleData
  rw [hf]
  simp [he, ht]

/-- Witness for the amended C5: the `{error: "bad file"}` response leaves
the initial state untouched. -/
theorem upload_error_keeps_state_witness :
    (uploadLocal0.selectedFile = Option.some "data.csv" ∧
      badResponse.error = Option.some "bad file" ∧ ("bad file" : String) ≠ "") ∧
    ((handleFileUpload uploadLocal0 initialState badResponse).2.1 = initialState ∧
      (handleFileUpload uploadLocal0 initialState badResponse).1.error =
        Option.some "bad file" ∧
      (handleFileUpload uploadLocal0 initialState badResponse).2.2 =
        [Request.uploadFile "data.csv" uploadLocal0.hasHeader uploadLocal0.skipRows
          uploadLocal0.headerRow] ∧
      (handleSampleData uploadLocal0 initialState badResponse).2.1 = initialState ∧
      (handleSampleData uploadLocal0 initialState badResponse).1.error =
        Option.some "bad file" ∧
      (handleSampleData uploadLocal0 initialState badResponse).2.2 =
        [Request.uploadSample]) :=
  ⟨⟨rfl, rfl, by decide⟩,
    upload_error_keeps_state uploadLocal0 initialState badResponse "data.csv"
      "bad file" rfl rfl (by decide)⟩

/-- C10: `renderAnalysisComponent` is total and inert outside the seven
known tags: whenever `sessionId` is null, or `dataInfo` is null, or the
selected analysis is not one of the seven known tags, it returns `null`
and mounting that (absent) view fires no backend request. -/
theorem render_total_safe (s : AppState)
    (h : s.sessionId = Option.none ∨ s.dataInfo = Option.none ∨
      s.currentAnalysis.getD "" ∉ knownTags) :
    renderAnalysisComponent s = Option.none ∧
    viewMountRequests (renderAnalysisComponent s) = [] := by
  have hr : renderAnalysisComponent s = Option.none := by
    obtain ⟨sid0, info0, tag0⟩ := s
    rcases h with h | h | h
    · simp only [AppState.sessionId] at h
      subst h
      cases info0 <;> rfl
    · simp only [AppState.dataInfo] at h
      subst h
      cases sid0 <;> rfl
    · cases sid0 with
      | none => cases info0 <;> rfl
      | some sid =>
        cases info0 with
        | none => rfl
        | some info =>
          cases tag0 with
          | none =>
            simp only [renderAnalysisComponent]
            split <;> rfl
          | some tag =>
            simp only [AppState.currentAnalysis, Option.getD_some, knownTags,
              List.mem_cons, List.mem_singleton, List.not_mem_nil, not_or] at h
            obtain ⟨e1, e2, e3, e4, e5, e6, e7, -⟩ := h
            simp [renderAnalysisComponent, e1, e2, e3, e4, e5, e6, e7]
  exact ⟨hr, by rw [hr]; rfl⟩

/-- Witness for C10 at a state whose selected analysis tag is unknown. -/
theorem render_total_safe_witness :
    (bogusTagState.sessionId = Option.none ∨ bogusTagState.dataInfo = Option.none ∨
      bogusTagState.currentAnalysis.getD "" ∉ knownTags) ∧
    (renderAnalysisComponent bogusTagState = Option.none ∧
      viewMountRequests (renderAnalysisComponent bogusTagState) = []) :=
  ⟨Or.inr (Or.inr (by decide)),
    render_total_safe bogusTagState (Or.inr (Or.inr (by decide)))⟩

/-- Counterexample to C8 as stated: a response carrying an empty `error`
string is treated as success (`if (result.error)` is falsy): the
missing-values view stores it as data and surfaces no error message. -/
theorem error_surface_ctrex :
    emptyErrResult.error = Option.some "" ∧
    (fetchMissingValuesData missingInit emptyErrResult).error = Option.none ∧
    (fetchMissingValuesData missingInit emptyErrResult).data =
      Option.some emptyErrResult := by
  refine ⟨rfl, by decide, by decide⟩

/-- C8 (amended): for every analysis view and every response whose `error`
field is a non-empty string, the view stores that string verbatim in its
error state, leaves its stored data unchanged, and (for the chat view) the
only request of the interaction is the original one — no retry. -/
theorem views_surface_error (bs : BasicStatsLocal) (di : DistributionLocal)
    (mv : MissingLocal) (ts : TimeSeriesLocal) (co : CorrelationLocal)
    (fr : FullReportLocal) (ch : ChatLocal) (sid : String) (r : AnalysisResult)
    (e : String) (he : r.error = Option.some e) (hne : e ≠ "")
    (hin : jsTrim ch.input ≠ "") (hld : ch.loading = false) :
    (fetchStats bs r).error = Option.some e ∧ (fetchStats bs r).data = bs.data ∧
    (fetchDistributionData di r).error = Option.some e ∧
    (fetchDistributionData di r).data = di.data ∧
    (fetchMissingValuesData mv r).error = Option.some e ∧
    (fetchMissingValuesData mv r).data = mv.data ∧
    (fetchTimeSeriesData ts r).error = Option.some e ∧
    (fetchTimeSeriesData ts r).data = ts.data ∧
    (fetchCorrelationData co r).error = Option.some e ∧
    (fetchCorrelationData co r).data = co.data ∧
    (generateReport fr r).error = Option.some e ∧
    (generateReport fr r).reportData = fr.reportData ∧
    (handleSendMessage sid ch r).1.error = Option.some e ∧
    (handleSendMessage sid ch r).2 = [Request.chatMessage sid (jsTrim ch.input)] := by
  have ht : truthy (Option.some e) = true := by
    simpa [truthy] using hne
  have hg : (jsTrim ch.input == "") = false := by simpa using hin
  unfold fetchStats fetchDistributionData fetchMissingValuesData
    fetchTimeSeriesData fetchCorrelationData generateReport handleSendMessage
  simp [he, ht, hg, hld]

/-- Witness for the amended C8 at the `{error: "boom"}` response and the
pending chat input `"hi"`. -/
theorem views_surface_error_witness :
    (boomResult.error = Option.some "boom" ∧ ("boom" : String) ≠ "" ∧
      jsTrim chatLocal0.input ≠ "" ∧ chatLocal0.loading = false) ∧
    ((fetchStats ⟨Option.none, true, Option.none⟩ boomResult).error =
        Option.some "boom" ∧
      (fetchStats ⟨Option.none, true, Option.none⟩ boomResult).data = Option.none ∧
      (fetchDistributionData (distributionInit ["price"]) boomResult).error =
        Option.some "boom" ∧
      (fetchDistributionData (distributionInit ["price"]) boomResult).data =
        Option.none ∧
      (fetchMissingValuesData missingInit boomResult).error = Option.some "boom" ∧
      (fetchMissingValuesData missingInit boomResult).data = Option.none ∧
      (fetchTimeSeriesData (timeSeriesInit ["date"] ["price"]) boomResult).error =
        Option.some "boom" ∧
      (fetchTimeSeriesData (timeSeriesInit ["date"] ["price"]) boomResult).data =
        Option.none ∧
      (fetchCorrelationData ⟨Option.none, true, Option.none⟩ boomResult).error =
        Option.some "boom" ∧
      (fetchCorrelationData ⟨Option.none, true, Option.none⟩ boomResult).data =
        Option.none ∧
      (generateReport ⟨Option.none, true, Option.none⟩ boomResult).error =
        Option.some "boom" ∧
      (generateReport ⟨Option.none, true, Option.none⟩ boomResult).reportData =
        Option.none ∧
      (handleSendMessage "s1" chatLocal0 boomResult).1.error = Option.some "boom" ∧
      (handleSendMessage "s1" chatLocal0 boomResult).2 =
        [Request.chatMessage "s1" (jsTrim chatLocal0.input)]) :=
  ⟨⟨rfl, by decide, by decide, rfl⟩,
    views_surface_error ⟨Option.none, true, Option.none⟩ (distributionInit ["price"])
      missingInit (timeSeriesInit ["date"] ["price"]) ⟨Option.none, true, Option.none⟩
      ⟨Option.none, true, Option.none⟩ chatLocal0 "s1" boomResult "boom" rfl
      (by decide) (by decide) rfl⟩

/-- Counterexample to C9 as stated: the chatbot is one of the seven
analysis views, yet mounting it issues no backend request at all (its only
effect scrolls the message list). -/
theorem chatbot_mount_ctrex :
    renderAnalysisComponent
        { sessionId := Option.some "s1", dataInfo := Option.some sampleInfo
          currentAnalysis := Option.some "chatbot" } =
      Option.some (View.chatBot "s1") ∧
    viewMountRequests (Option.some (View.chatBot "s1")) = [] := by
  refine ⟨by decide, rfl⟩

/-- C9 (amended): the basic-stats, missing-values, correlation and
full-report views issue exactly their one fetch on mount; the distribution
and time-series views do so when an initial column exists; the chatbot
issues none.  In the missing-values view, an apply whose response has no
non-empty `error` issues exactly one re-fetch of the missing-values
analysis and resets the selected method, while an apply whose response has
a non-empty `error` issues no re-fetch. -/
theorem mount_fetch_and_refetch (sid col : String) (restNcols dcols : List String)
    (mv : MissingLocal) (hrS hrE rr : AnalysisResult) (hcol : col ≠ "")
    (hd : dcols.headD "" ≠ "") (hm : mv.handlingMethod ≠ "")
    (hS : truthy hrS.error = false) (hE : truthy hrE.error = true) :
    viewMountRequests (Option.some (View.basicStats sid)) = [Request.basicStats sid] ∧
    viewMountRequests (Option.some (View.missingValues sid)) =
      [Request.missingValues sid] ∧
    viewMountRequests (Option.some (View.correlation sid)) =
      [Request.correlation sid] ∧
    viewMountRequests (Option.some (View.fullReport sid)) =
      [Request.comprehensiveReport sid] ∧
    viewMountRequests (Option.some (View.distribution sid (col :: restNcols))) =
      [Request.distribution sid col] ∧
    viewMountRequests (Option.some (View.timeSeries sid dcols (col :: restNcols))) =
      [Request.timeSeries sid (dcols.headD "") [Option.some col]] ∧
    viewMountRequests (Option.some (View.chatBot sid)) = [] ∧
    (handleMissingValuesAction sid mv hrS rr).2 =
      [Request.handleMissing sid mv.handlingMethod, Request.missingValues sid] ∧
    (handleMissingValuesAction sid mv hrS rr).1.handlingMethod = "" ∧
    (handleMissingValuesAction sid mv hrE rr).2 =
      [Request.handleMissing sid mv.handlingMethod] := by
  have hg : (mv.handlingMethod == "") = false := by simpa using hm
  refine ⟨rfl, rfl, rfl, rfl, ?_, ?_, rfl, ?_, ?_, ?_⟩
  · simp [viewMountRequests, distributionMountRequests, distributionInit, hcol]
  · have hd2 : dcols.head?.getD "" ≠ "" := by
      simpa [List.headD_eq_head?] using hd
    simp [viewMountRequests, timeSeriesMountRequests, timeSeriesInit,
      List.headD_eq_head?, hd2]
  · simp [handleMissingValuesAction, hg, hS]
  · simp [handleMissingValuesAction, hg, hS]
  · simp [handleMissingValuesAction, hg, hE]

/-- Witness for the amended C9 with a selected method `"drop"`, a
successful and a failing `handle-missing` response. -/
theorem mount_fetch_and_refetch_witness :
    (("price" : String) ≠ "" ∧ (["date"] : List String).headD "" ≠ "" ∧
      missingWithMethod.handlingMethod ≠ "" ∧ truthy okResult.error = false ∧
      truthy boomResult.error = true) ∧
    (viewMountRequests (Option.some (View.basicStats "s1")) =
        [Request.basicStats "s1"] ∧
      viewMountRequests (Option.some (View.missingValues "s1")) =
        [Request.missingValues "s1"] ∧
      viewMountRequests (Option.some (View.correlation "s1")) =
        [Request.correlation "s1"] ∧
      viewMountRequests (Option.some (View.fullReport "s1")) =
        [Request.comprehensiveReport "s1"] ∧
      viewMountRequests (Option.some (View.distribution "s1" ["price"])) =
        [Request.distribution "s1" "price"] ∧
      viewMountRequests (Option.some (View.timeSeries "s1" ["date"] ["price"])) =
        [Request.timeSeries "s1" ((["date"] : List String).headD "")
          [Option.some "price"]] ∧
      viewMountRequests (Option.some (View.chatBot "s1")) = [] ∧
      (handleMissingValuesAction "s1" missingWithMethod okResult boomResult).2 =
        [Request.handleMissing "s1" missingWithMethod.handlingMethod,
          Request.missingValues "s1"] ∧
      (handleMissingValuesAction "s1" missingWithMethod okResult
        boomResult).1.handlingMethod = "" ∧
      (handleMissingValuesAction "s1" missingWithMethod boomResult okResult).2 =
        [Request.handleMissing "s1" missingWithMethod.handlingMethod]) :=
  ⟨⟨by decide, by decide, by decide, rfl, rfl⟩,
    mount_fetch_and_refetch "s1" "price" [] ["date"] missingWithMethod okResult
      boomResult boomResult (by decide) (by decide) (by decide) rfl rfl⟩

end DataBot
